import Mathlib

/-!
Verification of the hospital-referral access-control core.

Shallow embedding of the SQL schema, row-level-security (RLS) policies,
trigger functions and the public read gateway of the hospiref-bridge
repository (files `src/unnamed/part_006` and `src/supabase/migrations/*`),
together with proofs about them.

Conventions:
* `UUID` is modelled as `Nat`; SQL `NULL`able columns as `Option`.
* SQL equality `a = b` on nullable operands is `NULL`-strict (a comparison
  with `NULL` never admits a row); `sqlEqOpt` returns `false` when either
  side is `NULL`.
* `auth.uid()` is an `Option UUID` (`none` when unauthenticated).
* The RLS engine combines permissive policies of a table by disjunction;
  a `FOR ALL` policy applies to every command, a `FOR SELECT/INSERT/UPDATE`
  policy only to its command.  `rowAllowed` evaluates the policy expression
  (the `USING` clause; for `INSERT` the `WITH CHECK` clause, which for the
  policies of this repository is the only expression the policy carries).
-/

abbrev UUID := Nat

inductive UserRole
  | admin | doctor | specialist | patient
deriving DecidableEq, Repr

inductive ReferralStatus
  | pending | in_progress | completed | cancelled
deriving DecidableEq, Repr

inductive Gender
  | male | female | other
deriving DecidableEq, Repr

inductive UrgencyLevel
  | low | medium | high | critical
deriving DecidableEq, Repr

/-- Table `public.profiles` (part_006, lines 8-20). -/
structure Profile where
  id : UUID
  full_name : String
  email : String
  phone : Option String
  role : UserRole
  hospital_id : Option UUID
  department_id : Option UUID
  license_number : Option String
  specialization : Option String
  created_at : Nat
  updated_at : Nat
deriving DecidableEq, Repr

/-- Table `public.hospitals` (part_006, lines 23-33). -/
structure Hospital where
  id : UUID
  name : String
  address : String
  phone : String
  email : Option String
  city : String
  state : String
  created_at : Nat
  updated_at : Nat
deriving DecidableEq, Repr

/-- Table `public.departments` (part_006, lines 36-44). -/
structure Department where
  id : UUID
  name : String
  description : Option String
  hospital_id : UUID
  head_doctor_id : Option UUID
  created_at : Nat
  updated_at : Nat
deriving DecidableEq, Repr

/-- Table `public.patients` (part_006, lines 47-62). -/
structure Patient where
  id : UUID
  patient_id : String
  full_name : String
  date_of_birth : Nat
  gender : Gender
  phone : Option String
  email : Option String
  address : Option String
  emergency_contact_name : Option String
  emergency_contact_phone : Option String
  medical_history : Option String
  current_hospital_id : Option UUID
  created_at : Nat
  updated_at : Nat
deriving DecidableEq, Repr

/-- Table `public.referrals` (part_006, lines 65-82). -/
structure Referral where
  id : UUID
  referral_id : String
  patient_id : UUID
  referring_doctor_id : UUID
  target_specialist_id : Option UUID
  origin_hospital_id : UUID
  target_hospital_id : UUID
  target_department_id : UUID
  reason : String
  urgency : UrgencyLevel
  status : ReferralStatus
  notes : Option String
  specialist_notes : Option String
  appointment_date : Option Nat
  created_at : Nat
  updated_at : Nat
deriving DecidableEq, Repr

/-- The relational store (the five RLS-protected tables the claims use). -/
structure Database where
  profiles : List Profile
  hospitals : List Hospital
  departments : List Department
  patients : List Patient
  referrals : List Referral
deriving DecidableEq, Repr

/-- SQL `a = b` where both operands are nullable: `NULL` on either side
yields `NULL`, which a policy treats as not admitted. -/
def sqlEqOpt (a b : Option UUID) : Bool :=
  match a, b with
  | some x, some y => x == y
  | _, _ => false

/-- SQL `a = b` where `a` is nullable and `b` is not. -/
def sqlEqOptL (a : Option UUID) (b : UUID) : Bool :=
  sqlEqOpt a (some b)

/-- Function `public.has_profile_role(_user_id, _role)`
(migration 20250927105316, lines 3-16): `SECURITY DEFINER` role lookup,
`EXISTS (SELECT 1 FROM profiles p WHERE p.id = _user_id AND p.role = _role)`.
The argument is `auth.uid()`, hence nullable. -/
def has_profile_role (db : Database) (auth : Option UUID) (r : UserRole) : Bool :=
  db.profiles.any fun p => sqlEqOpt (some p.id) auth && p.role == r

inductive SqlOp
  | select | insert | update | delete
deriving DecidableEq, Repr

/-- One RLS policy: the command it is declared `FOR` (`none` = `FOR ALL`)
and its row predicate over the database, `auth.uid()` and the row. -/
structure Policy (Row : Type) where
  cmd : Option SqlOp
  pred : Database → Option UUID → Row → Bool

def Policy.appliesTo {Row : Type} (pol : Policy Row) (op : SqlOp) : Bool :=
  match pol.cmd with
  | none => true
  | some c => c == op

/-- Permissive-policy semantics: an operation on a row is admitted iff some
policy applicable to the command admits it; with no applicable policy the
default is deny. -/
def rowAllowed {Row : Type} (pols : List (Policy Row)) (op : SqlOp)
    (db : Database) (auth : Option UUID) (row : Row) : Bool :=
  pols.any fun pol => pol.appliesTo op && pol.pred db auth row

/-- RLS policies on `public.profiles` after migration 20250927105316:
"Users can view their own profile", "Users can update their own profile"
(part_006 lines 96-97), "Admins can view all profiles", "Admins can insert
profiles" (rewritten over `has_profile_role`). -/
def profilePolicies : List (Policy Profile) :=
  [ ⟨some SqlOp.select, fun _ auth row => sqlEqOpt auth (some row.id)⟩
  , ⟨some SqlOp.update, fun _ auth row => sqlEqOpt auth (some row.id)⟩
  , ⟨some SqlOp.select, fun db auth _ => has_profile_role db auth UserRole.admin⟩
  , ⟨some SqlOp.insert, fun db auth _ => has_profile_role db auth UserRole.admin⟩ ]

/-- RLS policies on `public.patients` (part_006, lines 118-132):
"Doctors can view patients at their hospital" (`FOR SELECT`) and
"Doctors can manage patients" (`FOR ALL`). -/
def patientPolicies : List (Policy Patient) :=
  [ ⟨some SqlOp.select, fun db auth row =>
      db.profiles.any fun p =>
        sqlEqOpt (some p.id) auth
        && ((p.role == UserRole.doctor || p.role == UserRole.specialist
             || p.role == UserRole.admin)
            && (sqlEqOpt p.hospital_id row.current_hospital_id
                || p.role == UserRole.admin))⟩
  , ⟨none, fun db auth _ =>
      db.profiles.any fun p =>
        sqlEqOpt (some p.id) auth
        && (p.role == UserRole.doctor || p.role == UserRole.admin)⟩ ]

/-- RLS policies on `public.referrals` after migration 20250928152621:
four `FOR SELECT` policies, "Medical staff can create referrals"
(`FOR INSERT`, replacing "Doctors can create referrals") and
"Specialists can update assigned referrals" (`FOR UPDATE`),
part_006 lines 135-164. -/
def referralPolicies : List (Policy Referral) :=
  [ ⟨some SqlOp.select, fun _ auth row => sqlEqOpt (some row.referring_doctor_id) auth⟩
  , ⟨some SqlOp.select, fun _ auth row => sqlEqOpt row.target_specialist_id auth⟩
  , ⟨some SqlOp.select, fun db auth row =>
      db.profiles.any fun p =>
        sqlEqOpt (some p.id) auth
        && (p.role == UserRole.specialist
            && sqlEqOptL p.hospital_id row.target_hospital_id)⟩
  , ⟨some SqlOp.select, fun db auth _ => has_profile_role db auth UserRole.admin⟩
  , ⟨some SqlOp.insert, fun db auth row =>
      sqlEqOpt (some row.referring_doctor_id) auth
      && db.profiles.any fun p =>
           sqlEqOpt (some p.id) auth
           && (p.role == UserRole.doctor || p.role == UserRole.specialist
               || p.role == UserRole.admin)⟩
  , ⟨some SqlOp.update, fun db auth row =>
      sqlEqOpt row.target_specialist_id auth
      || db.profiles.any fun p =>
           sqlEqOpt (some p.id) auth
           && (p.role == UserRole.specialist
               && sqlEqOptL p.hospital_id row.target_hospital_id)⟩ ]

/-- Column `profiles.id` is the primary key: at most one profile per id.  Lookup
lemma: if `p` is the unique profile with its id, an `EXISTS` over profiles
guarded by `p.id = uid` evaluates to the body at `p`. -/
theorem any_guarded_eq (l : List Profile) (p : Profile) (f : Profile → Bool)
    (hp : p ∈ l) (huniq : ∀ q ∈ l, q.id = p.id → q = p) :
    (l.any fun q => sqlEqOpt (some q.id) (some p.id) && f q) = f p := by
  have key : ∀ q : Profile, sqlEqOpt (some q.id) (some p.id) = (q.id == p.id) := by
    intro q; rfl
  induction l with
  | nil => cases hp
  | cons a t ih =>
    simp only [List.any_cons, key]
    by_cases hid : a.id = p.id
    · have ha : a = p := huniq a (List.mem_cons_self a t) hid
      rw [ha]
      simp only [beq_self_eq_true, Bool.true_and]
      cases hfp : f p
      · simp only [hfp, Bool.false_or]
        rw [List.any_eq_false]
        intro q hq
        by_cases h2 : q.id = p.id
        · rw [huniq q (List.mem_cons_of_mem a hq) h2, hfp]
          simp
        · simp [h2]
      · simp
    · have hpt : p ∈ t := by
        cases List.mem_cons.mp hp with
        | inl h => exact absurd (congrArg Profile.id h.symm) hid
        | inr h => exact h
      have ih' := ih hpt fun q hq h => huniq q (List.mem_cons_of_mem a hq) h
      simp only [key] at ih'
      rw [ih']
      simp [hid]

/-- Prop form of `any_guarded_eq`. -/
theorem any_guarded_iff (l : List Profile) (p : Profile) (f : Profile → Bool)
    (hp : p ∈ l) (huniq : ∀ q ∈ l, q.id = p.id → q = p) :
    (l.any fun q => sqlEqOpt (some q.id) (some p.id) && f q) = true ↔ f p = true := by
  rw [any_guarded_eq l p f hp huniq]

/- Example rows used by witnesses and counterexamples. -/

def exHospitalA : Hospital :=
  { id := 10, name := "Hospital A", address := "1 A St", phone := "111",
    email := none, city := "CityA", state := "ST", created_at := 0, updated_at := 0 }

def exHospitalB : Hospital :=
  { id := 20, name := "Hospital B", address := "2 B St", phone := "222",
    email := none, city := "CityB", state := "ST", created_at := 0, updated_at := 0 }

def exDoctor : Profile :=
  { id := 1, full_name := "Dr. D", email := "d@example.org", phone := none,
    role := UserRole.doctor, hospital_id := some 10, department_id := none,
    license_number := none, specialization := none, created_at := 0, updated_at := 0 }

def exSpecialist : Profile :=
  { id := 2, full_name := "Dr. S", email := "s@example.org", phone := none,
    role := UserRole.specialist, hospital_id := some 20, department_id := none,
    license_number := none, specialization := none, created_at := 0, updated_at := 0 }

def exPatientUser : Profile :=
  { id := 5, full_name := "Pat U", email := "u@example.org", phone := none,
    role := UserRole.patient, hospital_id := none, department_id := none,
    license_number := none, specialization := none, created_at := 0, updated_at := 0 }

def exPatientRow : Patient :=
  { id := 100, patient_id := "PAT-2025-000001", full_name := "Pat P",
    date_of_birth := 0, gender := Gender.other, phone := none, email := none,
    address := none, emergency_contact_name := none, emergency_contact_phone := none,
    medical_history := none, current_hospital_id := some 20,
    created_at := 0, updated_at := 0 }

def exReferral : Referral :=
  { id := 200, referral_id := "REF-2025-000001", patient_id := 100,
    referring_doctor_id := 1, target_specialist_id := some 2,
    origin_hospital_id := 10, target_hospital_id := 20, target_department_id := 30,
    reason := "checkup", urgency := UrgencyLevel.medium,
    status := ReferralStatus.pending, notes := none, specialist_notes := none,
    appointment_date := none, created_at := 0, updated_at := 0 }

def exDb2 : Database :=
  { profiles := [exDoctor, exSpecialist], hospitals := [exHospitalA, exHospitalB],
    departments := [], patients := [exPatientRow], referrals := [exReferral] }

def exDb3 : Database :=
  { profiles := [exPatientUser], hospitals := [], departments := [],
    patients := [], referrals := [] }

/-- The row a self-promoting update would write: same profile, role `admin`. -/
def exSelfPromote : Profile :=
  { exPatientUser with role := UserRole.admin }

/-- C2 counterexample: in `exDb2`, the caller `exDoctor` has role `doctor` and
hospital 10, the patient row's current hospital is 20 (no match), yet the
`FOR ALL` policy "Doctors can manage patients" admits the read — the claim's
"a doctor whose hospital does not match cannot read" is false on the code. -/
theorem patients_select_hospital_scope_cex :
    rowAllowed patientPolicies SqlOp.select exDb2 (some exDoctor.id) exPatientRow = true
    ∧ exDoctor.role = UserRole.doctor
    ∧ exDoctor.hospital_id ≠ exPatientRow.current_hospital_id := by
  refine ⟨by decide, rfl, by decide⟩

/-- C2 (amended): an authenticated caller with unique profile `p` can read a
patient row iff `p.role` is `doctor` or `admin` (via the `FOR ALL`
"Doctors can manage patients" policy), or `p.role` is `specialist` and `p`'s
hospital matches the patient's current hospital (via "Doctors can view
patients at their hospital"). -/
theorem patients_select_policy_characterization
    (db : Database) (p : Profile) (row : Patient)
    (hp : p ∈ db.profiles)
    (huniq : ∀ q ∈ db.profiles, q.id = p.id → q = p) :
    rowAllowed patientPolicies SqlOp.select db (some p.id) row = true ↔
      (p.role = UserRole.doctor ∨ p.role = UserRole.admin ∨
        (p.role = UserRole.specialist ∧
          sqlEqOpt p.hospital_id row.current_hospital_id = true)) := by
  simp only [rowAllowed, patientPolicies, Policy.appliesTo, List.any_cons,
    List.any_nil, Bool.or_false, Bool.or_eq_true, Bool.and_eq_true, beq_self_eq_true,
    true_and]
  rw [any_guarded_eq db.profiles p _ hp huniq, any_guarded_eq db.profiles p _ hp huniq]
  cases hh : sqlEqOpt p.hospital_id row.current_hospital_id <;>
    cases p.role <;> simp [hh]

/-- C2 witness for the amended characterization: the specialist at hospital 20
can read the patient currently at hospital 20. -/
theorem patients_select_policy_characterization_witness :
    rowAllowed patientPolicies SqlOp.select exDb2 (some exSpecialist.id) exPatientRow = true :=
  (patients_select_policy_characterization exDb2 exSpecialist exPatientRow
    (by decide) (by decide)).mpr (Or.inr (Or.inr ⟨rfl, by decide⟩))

/-- C3: the profile self-update path admits a role change.  In `exDb3` the
caller is `exPatientUser` (role `patient`); the `UPDATE` policy
"Users can update their own profile" (`USING auth.uid() = id`, no `WITH
CHECK`, no column restriction) admits the old row, and admits the new row
`exSelfPromote` whose role is `admin` — a non-admin operation that changes
the caller's own `role`, contradicting the claim. -/
theorem profile_self_role_update_goes_through :
    rowAllowed profilePolicies SqlOp.update exDb3 (some exPatientUser.id) exPatientUser = true
    ∧ rowAllowed profilePolicies SqlOp.update exDb3 (some exPatientUser.id) exSelfPromote = true
    ∧ has_profile_role exDb3 (some exPatientUser.id) UserRole.admin = false
    ∧ exSelfPromote.id = exPatientUser.id
    ∧ exSelfPromote.role ≠ exPatientUser.role
    ∧ exSelfPromote.role = UserRole.admin := by
  refine ⟨by decide, by decide, by decide, rfl, by decide, rfl⟩

/-- C4: a specialist caller with unique profile `p` may update a referral row
iff they are the assigned target specialist or their hospital is the
referral's target hospital ("Specialists can update assigned referrals",
the only `UPDATE` policy on referrals). -/
theorem referrals_update_policy_characterization
    (db : Database) (p : Profile) (r : Referral)
    (hp : p ∈ db.profiles)
    (huniq : ∀ q ∈ db.profiles, q.id = p.id → q = p)
    (hrole : p.role = UserRole.specialist) :
    rowAllowed referralPolicies SqlOp.update db (some p.id) r = true ↔
      (r.target_specialist_id = some p.id ∨ p.hospital_id = some r.target_hospital_id) := by
  simp only [rowAllowed, referralPolicies, Policy.appliesTo, List.any_cons,
    List.any_nil, Bool.or_false, Bool.or_eq_true, Bool.and_eq_true, beq_self_eq_true,
    true_and]
  rw [any_guarded_eq db.profiles p _ hp huniq]
  have h1 : ∀ b : Bool, (decide (SqlOp.select = SqlOp.update) && b) = false := by decide
  have h2 : ∀ b : Bool, (decide (SqlOp.insert = SqlOp.update) && b) = false := by decide
  simp only [hrole, sqlEqOptL]
  cases hts : r.target_specialist_id with
  | none =>
    cases hh : p.hospital_id with
    | none => simp [sqlEqOpt]
    | some x => simp [sqlEqOpt, beq_iff_eq]
  | some s =>
    cases hh : p.hospital_id with
    | none => simp [sqlEqOpt, beq_iff_eq]
    | some x => simp [sqlEqOpt, beq_iff_eq]

/-- C4 witness: `exSpecialist` (id 2) is the assigned target specialist of
`exReferral`, so the policy admits the update. -/
theorem referrals_update_policy_characterization_witness :
    rowAllowed referralPolicies SqlOp.update exDb2 (some exSpecialist.id) exReferral = true :=
  (referrals_update_policy_characterization exDb2 exSpecialist exReferral
    (by decide) (by decide) rfl).mpr (Or.inl (by decide))

/-- C5: the `INSERT` policy "Medical staff can create referrals" (migration
20250928152621) admits a referral insert for authenticated caller `uid` iff
the new row's `referring_doctor_id` is `uid` and some profile with id `uid`
has role `doctor`, `specialist` or `admin`; any row naming a different
referring doctor is rejected. -/
theorem referrals_insert_policy_characterization
    (db : Database) (uid : UUID) (r : Referral) :
    rowAllowed referralPolicies SqlOp.insert db (some uid) r = true ↔
      (r.referring_doctor_id = uid ∧ ∃ p ∈ db.profiles, p.id = uid ∧
        (p.role = UserRole.doctor ∨ p.role = UserRole.specialist ∨
          p.role = UserRole.admin)) := by
  simp only [rowAllowed, referralPolicies, Policy.appliesTo, List.any_cons,
    List.any_nil, Bool.or_false, Bool.or_eq_true, Bool.and_eq_true]
  constructor
  · intro h
    rcases h with ⟨hfalse, -⟩ | ⟨hfalse, -⟩ | ⟨hfalse, -⟩ | ⟨hfalse, -⟩ |
      ⟨-, hdoc, hany⟩ | ⟨hfalse, -⟩
    · exact absurd hfalse (by decide)
    · exact absurd hfalse (by decide)
    · exact absurd hfalse (by decide)
    · exact absurd hfalse (by decide)
    · refine ⟨by simpa [sqlEqOpt] using hdoc, ?_⟩
      rcases List.any_eq_true.mp hany with ⟨q, hq, hbody⟩
      rcases Bool.and_eq_true _ _ ▸ hbody with ⟨hid, hrole⟩
      refine ⟨q, hq, by simpa [sqlEqOpt] using hid, ?_⟩
      rcases Bool.or_eq_true _ _ ▸ hrole with h | h
      · rcases Bool.or_eq_true _ _ ▸ h with h' | h'
        · exact Or.inl (by simpa using h')
        · exact Or.inr (Or.inl (by simpa using h'))
      · exact Or.inr (Or.inr (by simpa using h))
    · exact absurd hfalse (by decide)
  · rintro ⟨hdoc, q, hq, hid, hrole⟩
    refine Or.inr (Or.inr (Or.inr (Or.inr (Or.inl ⟨by decide, ?_, ?_⟩))))
    · simp [sqlEqOpt, hdoc]
    · refine List.any_eq_true.mpr ⟨q, hq, ?_⟩
      have hg : sqlEqOpt (some q.id) (some uid) = true := by simp [sqlEqOpt, hid]
      rw [hg, Bool.true_and]
      rcases hrole with h | h | h <;> simp [h]

/-- C9: no RLS policy on `public.referrals` applies to `DELETE` (the six
policies are `FOR SELECT` (four), `FOR INSERT` and `FOR UPDATE`), so under
permissive-policy default-deny semantics no caller of any role may delete a
referral row. -/
theorem referrals_delete_never_allowed
    (db : Database) (auth : Option UUID) (r : Referral) :
    rowAllowed referralPolicies SqlOp.delete db auth r = false := by
  simp [rowAllowed, referralPolicies, Policy.appliesTo]

/-! ## Identifier generator (part_006 lines 167-198) -/

/-- Decimal digit characters of `n`, most significant first: the model of
the SQL `::TEXT` cast of a non-negative integer.  Structural fuel keeps the
definition kernel-reducible; `decDigitsAux_eq` relates it to `Nat.digits`. -/
def decDigitsAux : Nat → Nat → List Char
  | 0, _ => []
  | _ + 1, 0 => []
  | fuel + 1, n + 1 =>
      decDigitsAux fuel ((n + 1) / 10) ++ [Char.ofNat (48 + (n + 1) % 10)]

def decDigits (n : Nat) : List Char :=
  if n = 0 then ['0'] else decDigitsAux n n

def natToDecString (n : Nat) : String := ⟨decDigits n⟩

theorem decDigitsAux_eq (fuel : Nat) : ∀ n : Nat, n ≤ fuel →
    decDigitsAux fuel n = ((Nat.digits 10 n).map fun d => Char.ofNat (48 + d)).reverse := by
  induction fuel with
  | zero =>
    intro n h
    have hn : n = 0 := Nat.le_zero.mp h
    subst hn
    simp [decDigitsAux]
  | succ f ih =>
    intro n h
    cases n with
    | zero => simp [decDigitsAux]
    | succ m =>
      have hdiv : (m + 1) / 10 ≤ f := by
        have := Nat.div_lt_self (Nat.succ_pos m) (by norm_num : 1 < 10)
        omega
      rw [show decDigitsAux (f + 1) (m + 1)
            = decDigitsAux f ((m + 1) / 10) ++ [Char.ofNat (48 + (m + 1) % 10)] from rfl]
      rw [ih _ hdiv, Nat.digits_def' (by norm_num : 1 < 10) (Nat.succ_pos m)]
      simp

theorem digitChar_isDigit (d : Nat) (h : d < 10) :
    (Char.ofNat (48 + d)).isDigit = true := by
  interval_cases d <;> decide

theorem decDigits_all_digit (n : Nat) : (decDigits n).all Char.isDigit = true := by
  unfold decDigits
  split
  · decide
  · rw [decDigitsAux_eq n n le_rfl, List.all_eq_true]
    intro c hc
    rw [List.mem_reverse, List.mem_map] at hc
    obtain ⟨d, hd, rfl⟩ := hc
    exact digitChar_isDigit d (Nat.digits_lt_base (by norm_num) hd)

theorem decDigits_length_le (n k : Nat) (hk : 0 < k) (h : n < 10 ^ k) :
    (decDigits n).length ≤ k := by
  unfold decDigits
  split
  · simpa using hk
  · rw [decDigitsAux_eq n n le_rfl]
    simp only [List.length_reverse, List.length_map]
    rename_i hn
    rw [Nat.digits_len 10 n (by norm_num) hn]
    have := (Nat.lt_pow_iff_log_lt (by norm_num : 1 < 10) hn).mp h
    omega

theorem decDigits_length_eq_four (n : Nat) (h1 : 1000 ≤ n) (h2 : n ≤ 9999) :
    (decDigits n).length = 4 := by
  have hne : n ≠ 0 := by omega
  unfold decDigits
  rw [if_neg hne, decDigitsAux_eq n n le_rfl]
  simp only [List.length_reverse, List.length_map]
  rw [Nat.digits_len 10 n (by norm_num) hne]
  have hlog : Nat.log 10 n = 3 :=
    Nat.log_eq_of_pow_le_of_lt_pow (by norm_num; omega) (by norm_num; omega)
  omega

/-- SQL `LPAD(str, len, fill)`: left-pad to `len` with `fill`; a longer string is
truncated on the right. -/
def lpad (s : String) (n : Nat) (c : Char) : String :=
  if n ≤ s.length then ⟨s.data.take n⟩
  else ⟨List.replicate (n - s.length) c ++ s.data⟩

theorem lpad_data (s : String) (n : Nat) (c : Char) (h : s.data.length ≤ n) :
    (lpad s n c).data = List.replicate (n - s.data.length) c ++ s.data := by
  unfold lpad
  have hlen : s.length = s.data.length := rfl
  split
  · rename_i hle
    rw [hlen] at hle
    have heq : s.data.length = n := le_antisymm h hle
    rw [heq]
    simp [List.take_of_length_le (le_of_eq heq)]
  · rw [hlen]

theorem lpad_length (s : String) (n : Nat) (c : Char) (h : s.data.length ≤ n) :
    (lpad s n c).data.length = n := by
  rw [lpad_data s n c h]
  simp only [List.length_append, List.length_replicate]
  omega

theorem lpad_all_digit (s : String) (n : Nat)
    (hs : s.data.all Char.isDigit = true) :
    (lpad s n '0').data.all Char.isDigit = true := by
  unfold lpad
  split
  · rw [List.all_eq_true] at hs ⊢
    intro c hc
    exact hs c (List.mem_of_mem_take hc)
  · rw [List.all_eq_true] at hs ⊢
    intro c hc
    rcases List.mem_append.mp hc with h | h
    · rw [List.eq_of_mem_replicate h]
      decide
    · exact hs c h

/-- SQL `TO_CHAR(NOW(), 'YYYY')`: the year, zero-padded to at least four digits. -/
def toCharYYYY (year : Nat) : String :=
  if (decDigits year).length < 4 then
    ⟨List.replicate (4 - (decDigits year).length) '0' ++ decDigits year⟩
  else ⟨decDigits year⟩

theorem toCharYYYY_data (year : Nat) (h1 : 1000 ≤ year) (h2 : year ≤ 9999) :
    (toCharYYYY year).data = decDigits year := by
  unfold toCharYYYY
  rw [if_neg (by rw [decDigits_length_eq_four year h1 h2]; omega)]

/-- SQL `FLOOR(RANDOM() * 999999)` with the random draw `q ∈ [0,1)` made an
explicit argument. -/
def randSuffix (q : ℚ) : Nat := (⌊q * 999999⌋).toNat

theorem randSuffix_lt (q : ℚ) (h0 : 0 ≤ q) (h1 : q < 1) :
    randSuffix q < 999999 := by
  have hf : ⌊q * (999999 : ℚ)⌋ < (999999 : ℤ) := by
    rw [Int.floor_lt]
    push_cast
    nlinarith
  unfold randSuffix
  omega

/-- One candidate of the ID-generation loop:
`pfx || '-' || TO_CHAR(NOW(),'YYYY') || '-' || LPAD(FLOOR(RANDOM()*999999)::TEXT, 6, '0')`. -/
def genCandidate (pfx : String) (year : Nat) (q : ℚ) : String :=
  pfx ++ "-" ++ toCharYYYY year ++ "-" ++ lpad (natToDecString (randSuffix q)) 6 '0'

/-- Function `generate_referral_id()` (part_006 lines 167-181): loop drawing random
candidates until one is absent from `referrals.referral_id`.  The stream of
`RANDOM()` draws is explicit; `none` means the stream was exhausted before a
fresh candidate was found (the SQL loop would keep drawing). -/
def generate_referral_id (db : Database) (year : Nat) : List ℚ → Option String
  | [] => none
  | q :: qs =>
    let new_id := genCandidate "REF" year q
    if db.referrals.any fun r => r.referral_id == new_id then
      generate_referral_id db year qs
    else some new_id

/-- Function `generate_patient_id()` (part_006 lines 184-198), identically structured
over `patients.patient_id` with prefix `PAT`. -/
def generate_patient_id (db : Database) (year : Nat) : List ℚ → Option String
  | [] => none
  | q :: qs =>
    let new_id := genCandidate "PAT" year q
    if db.patients.any fun p => p.patient_id == new_id then
      generate_patient_id db year qs
    else some new_id

/-- Boolean check of the anchored format `^pfx-\d\x7b4\x7d-\d\x7b6\x7d$`. -/
def matchesIdFormat (pfx s : String) : Bool :=
  (s.data.take pfx.data.length == pfx.data) &&
    match s.data.drop pfx.data.length with
    | '-' :: rest =>
        ((rest.take 4).length == 4) && (rest.take 4).all Char.isDigit
          && (match rest.drop 4 with
              | '-' :: ns => (ns.length == 6) && ns.all Char.isDigit
              | _ => false)
    | _ => false

theorem matchesIdFormat_build (pfx : String) (ys ns : List Char)
    (hy : ys.length = 4) (hn : ns.length = 6)
    (hyd : ys.all Char.isDigit = true) (hnd : ns.all Char.isDigit = true) :
    matchesIdFormat pfx ⟨pfx.data ++ '-' :: (ys ++ '-' :: ns)⟩ = true := by
  unfold matchesIdFormat
  rw [show (String.mk (pfx.data ++ '-' :: (ys ++ '-' :: ns))).data
        = pfx.data ++ '-' :: (ys ++ '-' :: ns) from rfl]
  rw [List.take_left, List.drop_left]
  have hys : ('-' :: (ys ++ '-' :: ns)).tail = ys ++ '-' :: ns := rfl
  simp only [beq_self_eq_true, Bool.true_and]
  have htake : (ys ++ '-' :: ns).take 4 = ys := by
    rw [← hy]; exact List.take_left ys ('-' :: ns)
  have hdrop : (ys ++ '-' :: ns).drop 4 = '-' :: ns := by
    rw [← hy]; exact List.drop_left ys ('-' :: ns)
  simp only [htake, hdrop, hy, hn, hyd, hnd, beq_self_eq_true, Bool.true_and,
    Bool.and_true]

theorem genCandidate_data (pfx : String) (year : Nat) (q : ℚ) :
    (genCandidate pfx year q).data
      = pfx.data ++ '-' :: ((toCharYYYY year).data
          ++ '-' :: (lpad (natToDecString (randSuffix q)) 6 '0').data) := by
  unfold genCandidate
  simp [String.data_append, List.append_assoc]

/-- Any candidate the loop can emit is format-conform, for a 4-digit year
and a random draw in `[0,1)`. -/
theorem genCandidate_matches (pfx : String) (year : Nat) (q : ℚ)
    (h1 : 1000 ≤ year) (h2 : year ≤ 9999) (hq0 : 0 ≤ q) (hq1 : q < 1) :
    matchesIdFormat pfx (genCandidate pfx year q) = true := by
  have hsuf : randSuffix q < 999999 := randSuffix_lt q hq0 hq1
  have hslen : (natToDecString (randSuffix q)).data.length ≤ 6 := by
    exact decDigits_length_le (randSuffix q) 6 (by norm_num) (by omega)
  have hcand := genCandidate_data pfx year q
  have hcand2 : genCandidate pfx year q
      = ⟨pfx.data ++ '-' :: ((toCharYYYY year).data
          ++ '-' :: (lpad (natToDecString (randSuffix q)) 6 '0').data)⟩ :=
    String.ext hcand
  rw [hcand2, toCharYYYY_data year h1 h2]
  exact matchesIdFormat_build pfx _ _
    (decDigits_length_eq_four year h1 h2)
    (lpad_length _ 6 '0' hslen)
    (decDigits_all_digit year)
    (lpad_all_digit _ 6 (decDigits_all_digit (randSuffix q)))

/-- C7: every identifier the generators return has the bit-exact format
`REF-YYYY-NNNNNN` / `PAT-YYYY-NNNNNN` (4-digit year, exactly six decimal
digits), i.e. satisfies the anchored format check `matchesIdFormat`. -/
theorem generated_ids_match_format
    (db : Database) (year : Nat) (qs : List ℚ) (s t : String)
    (hy1 : 1000 ≤ year) (hy2 : year ≤ 9999)
    (hqs : ∀ q ∈ qs, 0 ≤ q ∧ q < 1) :
    (generate_referral_id db year qs = some s → matchesIdFormat "REF" s = true)
    ∧ (generate_patient_id db year qs = some t → matchesIdFormat "PAT" t = true) := by
  constructor
  · induction qs with
    | nil => intro h; simp [generate_referral_id] at h
    | cons q rest ih =>
      intro h
      rw [generate_referral_id] at h
      split at h
      · exact ih (fun x hx => hqs x (List.mem_cons_of_mem q hx)) h
      · have hq := hqs q (List.mem_cons_self q rest)
        cases h
        exact genCandidate_matches "REF" year q hy1 hy2 hq.1 hq.2
  · induction qs with
    | nil => intro h; simp [generate_patient_id] at h
    | cons q rest ih =>
      intro h
      rw [generate_patient_id] at h
      split at h
      · exact ih (fun x hx => hqs x (List.mem_cons_of_mem q hx)) h
      · have hq := hqs q (List.mem_cons_self q rest)
        cases h
        exact genCandidate_matches "PAT" year q hy1 hy2 hq.1 hq.2

theorem randSuffix_zero : randSuffix 0 = 0 := by
  simp [randSuffix]

theorem genCandidate_REF_2025_zero : genCandidate "REF" 2025 0 = "REF-2025-000000" := by
  unfold genCandidate
  rw [randSuffix_zero]
  rfl

theorem genCandidate_PAT_2025_zero : genCandidate "PAT" 2025 0 = "PAT-2025-000000" := by
  unfold genCandidate
  rw [randSuffix_zero]
  rfl

/-- C7 witness: with one draw `0` in year 2025 against `exDb2`, the
generators return `REF-2025-000000` / `PAT-2025-000000`, and the theorem
yields the format check for them. -/
theorem generated_ids_match_format_witness :
    matchesIdFormat "REF" "REF-2025-000000" = true
    ∧ matchesIdFormat "PAT" "PAT-2025-000000" = true := by
  have href : generate_referral_id exDb2 2025 [0] = some "REF-2025-000000" := by
    simp only [generate_referral_id, genCandidate_REF_2025_zero]
    decide
  have hpat : generate_patient_id exDb2 2025 [0] = some "PAT-2025-000000" := by
    simp only [generate_patient_id, genCandidate_PAT_2025_zero]
    decide
  have h := generated_ids_match_format exDb2 2025 [0] "REF-2025-000000" "PAT-2025-000000"
    (by norm_num) (by norm_num)
    (by
      intro q hq
      rw [List.mem_singleton] at hq
      subst hq
      exact ⟨le_refl 0, by norm_num⟩)
  exact ⟨h.1 href, h.2 hpat⟩

/-- C8 counterexample: the value 999999 is never produced by the
random-suffix step `FLOOR(RANDOM() * 999999)`, so the candidate space is not
the full 1,000,000 values per year the claim asserts. -/
theorem randSuffix_misses_999999 :
    ¬ ∃ q : ℚ, 0 ≤ q ∧ q < 1 ∧ randSuffix q = 999999 := by
  rintro ⟨q, h0, h1, he⟩
  have := randSuffix_lt q h0 h1
  omega

/-- C8 (amended): the suffix step ranges over exactly the 999,999 values
000000–999998: every `k ≤ 999998` is attained by some draw in `[0,1)`, and
no draw reaches 999999. -/
theorem randSuffix_range (k : Nat) (hk : k ≤ 999998) :
    (∃ q : ℚ, 0 ≤ q ∧ q < 1 ∧ randSuffix q = k)
    ∧ (∀ q : ℚ, 0 ≤ q → q < 1 → randSuffix q ≤ 999998) := by
  constructor
  · refine ⟨(k : ℚ) / 999999, by positivity, ?_, ?_⟩
    · rw [div_lt_one (by norm_num)]
      exact_mod_cast lt_of_le_of_lt hk (by norm_num)
    · unfold randSuffix
      rw [div_mul_cancel₀ _ (by norm_num : (999999 : ℚ) ≠ 0)]
      rw [Int.floor_natCast]
      simp
  · intro q h0 h1
    have := randSuffix_lt q h0 h1
    omega

/-- C8 witness for the amended statement, at `k = 123456`. -/
theorem randSuffix_range_witness :
    (∃ q : ℚ, 0 ≤ q ∧ q < 1 ∧ randSuffix q = 123456)
    ∧ (∀ q : ℚ, 0 ≤ q → q < 1 → randSuffix q ≤ 999998) :=
  randSuffix_range 123456 (by norm_num)

/-! ## Public read gateway (migration 20250927105316, lines 33-85) -/

/-- Output row of `get_referral_public`: the fixed projection declared in
the function's `RETURNS TABLE`.  There is no `specialist_notes` column. -/
structure PublicReferralRow where
  referral_id : String
  status : ReferralStatus
  urgency : UrgencyLevel
  reason : String
  notes : Option String
  appointment_date : Option Nat
  created_at : Nat
  patient_full_name : String
  patient_id : String
  referring_doctor_name : Option String
  target_specialist_name : Option String
  origin_hospital_name : String
  origin_hospital_city : String
  origin_hospital_state : String
  target_hospital_name : String
  target_hospital_city : String
  target_hospital_state : String
  target_department_name : String
  target_department_description : Option String
deriving DecidableEq, Repr

/-- SQL `UPPER` on the identifier argument: upper-case every character. -/
def sqlUpper (s : String) : String := ⟨s.data.map Char.toUpper⟩

/-- SQL `LEFT JOIN`: when no row matches, one all-`NULL` partner row. -/
def leftJoinOpt {α : Type} (l : List α) : List (Option α) :=
  if l.isEmpty then [none] else l.map some

/-- The `SELECT` list of `get_referral_public` (lines 56-75): only the
listed columns of the joined rows; `specialist_notes` is not read. -/
def publicProjection (r : Referral) (p : Patient) (d s : Option Profile)
    (oh th : Hospital) (td : Department) : PublicReferralRow :=
  { referral_id := r.referral_id
  , status := r.status
  , urgency := r.urgency
  , reason := r.reason
  , notes := r.notes
  , appointment_date := r.appointment_date
  , created_at := r.created_at
  , patient_full_name := p.full_name
  , patient_id := p.patient_id
  , referring_doctor_name := d.map Profile.full_name
  , target_specialist_name := s.map Profile.full_name
  , origin_hospital_name := oh.name
  , origin_hospital_city := oh.city
  , origin_hospital_state := oh.state
  , target_hospital_name := th.name
  , target_hospital_city := th.city
  , target_hospital_state := th.state
  , target_department_name := td.name
  , target_department_description := td.description }

/-- The join chain of `get_referral_public` (lines 76-82) for one referral:
inner joins on patient, origin/target hospital and target department, left
joins on referring doctor and target specialist. -/
def referralJoinRows (db : Database) (r : Referral) : List PublicReferralRow :=
  (db.patients.filter fun p => p.id == r.patient_id).flatMap fun p =>
  (leftJoinOpt (db.profiles.filter fun d => d.id == r.referring_doctor_id)).flatMap fun d =>
  (leftJoinOpt (db.profiles.filter fun s =>
      sqlEqOpt (some s.id) r.target_specialist_id)).flatMap fun s =>
  (db.hospitals.filter fun oh => oh.id == r.origin_hospital_id).flatMap fun oh =>
  (db.hospitals.filter fun th => th.id == r.target_hospital_id).flatMap fun th =>
  (db.departments.filter fun td => td.id == r.target_department_id).map fun td =>
    publicProjection r p d s oh th td

/-- Function `public.get_referral_public(_referral_id)`: rows of the join whose
`referral_id` equals `UPPER(_referral_id)`, `LIMIT 1`. -/
def get_referral_public (db : Database) (rid : String) : List PublicReferralRow :=
  ((db.referrals.filter fun r => r.referral_id == sqlUpper rid).flatMap fun r =>
    referralJoinRows db r).take 1

/-- Overwrite every referral's `specialist_notes`: the probe for the
claim that the gateway's output never depends on that column. -/
def setAllSpecialistNotes (db : Database) (v : Option String) : Database :=
  { db with referrals := db.referrals.map fun r => { r with specialist_notes := v } }

theorem leftJoinOpt_ne_nil {α : Type} (l : List α) : leftJoinOpt l ≠ [] := by
  unfold leftJoinOpt
  split
  · simp
  · rename_i h
    rw [List.isEmpty_iff] at h
    simpa using h

theorem flatMap_map_eq {α β γ : Type} (l : List α) (g : α → β) (f : β → List γ) :
    (l.map g).flatMap f = l.flatMap fun x => f (g x) := by
  induction l with
  | nil => rfl
  | cons a t ih => simp [ih]

theorem referralJoinRows_ne_nil (db : Database) (r : Referral) (p : Patient)
    (oh th : Hospital) (td : Department)
    (h2 : db.patients.filter (fun x => x.id == r.patient_id) = [p])
    (h3 : db.hospitals.filter (fun x => x.id == r.origin_hospital_id) = [oh])
    (h4 : db.hospitals.filter (fun x => x.id == r.target_hospital_id) = [th])
    (h5 : db.departments.filter (fun x => x.id == r.target_department_id) = [td]) :
    referralJoinRows db r ≠ [] := by
  obtain ⟨d0, ds, hd⟩ := List.exists_cons_of_ne_nil
    (leftJoinOpt_ne_nil (db.profiles.filter fun d => d.id == r.referring_doctor_id))
  obtain ⟨s0, ss, hs⟩ := List.exists_cons_of_ne_nil
    (leftJoinOpt_ne_nil (db.profiles.filter fun s =>
      sqlEqOpt (some s.id) r.target_specialist_id))
  unfold referralJoinRows
  simp only [h2, h3, h4, h5, hd, hs, List.flatMap_cons, List.flatMap_nil,
    List.append_nil, List.map_cons, List.map_nil, List.singleton_append,
    List.cons_append]
  simp

/-- C1: `get_referral_public` (i) returns exactly one row when a referral's
`referral_id` equals the upper-cased argument and the row's foreign keys
resolve uniquely, (ii) returns zero rows (not an error) when no referral
matches the upper-cased argument, and (iii) its output never depends on any
referral's `specialist_notes` column. -/
theorem get_referral_public_spec :
    (∀ (db : Database) (rid : String) (r : Referral) (p : Patient)
        (oh th : Hospital) (td : Department),
        db.referrals.filter (fun x => x.referral_id == sqlUpper rid) = [r] →
        db.patients.filter (fun x => x.id == r.patient_id) = [p] →
        db.hospitals.filter (fun x => x.id == r.origin_hospital_id) = [oh] →
        db.hospitals.filter (fun x => x.id == r.target_hospital_id) = [th] →
        db.departments.filter (fun x => x.id == r.target_department_id) = [td] →
        (get_referral_public db rid).length = 1)
    ∧ (∀ (db : Database) (rid : String),
        db.referrals.filter (fun x => x.referral_id == sqlUpper rid) = [] →
        get_referral_public db rid = [])
    ∧ (∀ (db : Database) (rid : String) (v : Option String),
        get_referral_public (setAllSpecialistNotes db v) rid
          = get_referral_public db rid) := by
  refine ⟨?_, ?_, ?_⟩
  · intro db rid r p oh th td h1 h2 h3 h4 h5
    unfold get_referral_public
    rw [h1]
    simp only [List.flatMap_cons, List.flatMap_nil, List.append_nil]
    have hne := referralJoinRows_ne_nil db r p oh th td h2 h3 h4 h5
    rw [List.length_take]
    have hpos : 0 < (referralJoinRows db r).length := List.length_pos.mpr hne
    omega
  · intro db rid h
    unfold get_referral_public
    rw [h]
    rfl
  · intro db rid v
    unfold get_referral_public
    rw [show (setAllSpecialistNotes db v).referrals
          = db.referrals.map fun r => { r with specialist_notes := v } from rfl]
    rw [List.filter_map]
    rw [show ((fun x : Referral => x.referral_id == sqlUpper rid)
          ∘ fun r : Referral => { r with specialist_notes := v })
          = fun x : Referral => x.referral_id == sqlUpper rid from rfl]
    rw [flatMap_map_eq]
    rfl

def exDept : Department :=
  { id := 30, name := "Cardiology", description := some "Heart care",
    hospital_id := 20, head_doctor_id := none, created_at := 0, updated_at := 0 }

def exDb1 : Database :=
  { profiles := [exDoctor, exSpecialist], hospitals := [exHospitalA, exHospitalB],
    departments := [exDept], patients := [exPatientRow], referrals := [exReferral] }

/-- C1 witness: a lower-case lookup of the one referral in `exDb1` returns
exactly one row. -/
theorem get_referral_public_spec_witness :
    (get_referral_public exDb1 "ref-2025-000001").length = 1 :=
  get_referral_public_spec.1 exDb1 "ref-2025-000001" exReferral exPatientRow
    exHospitalA exHospitalB exDept (by decide) (by decide) (by decide) (by decide)
    (by decide)

/-! ## UPDATE pipeline and `updated_at` triggers (part_006 lines 250-263) -/

/-- A SQL `UPDATE ... SET` list on `profiles`: `none` = column not named. -/
structure ProfileUpdate where
  full_name : Option String := none
  email : Option String := none
  phone : Option (Option String) := none
  role : Option UserRole := none
  hospital_id : Option (Option UUID) := none
  department_id : Option (Option UUID) := none
  license_number : Option (Option String) := none
  specialization : Option (Option String) := none
  updated_at : Option Nat := none
deriving Repr

def applyProfileUpdate (u : ProfileUpdate) (r : Profile) : Profile :=
  { r with
    full_name := u.full_name.getD r.full_name
    email := u.email.getD r.email
    phone := u.phone.getD r.phone
    role := u.role.getD r.role
    hospital_id := u.hospital_id.getD r.hospital_id
    department_id := u.department_id.getD r.department_id
    license_number := u.license_number.getD r.license_number
    specialization := u.specialization.getD r.specialization
    updated_at := u.updated_at.getD r.updated_at }

/-- Pipeline of `BEFORE UPDATE` on `profiles`: apply the SET list, then the
`update_profiles_updated_at` trigger runs `update_updated_at_column()`
(`NEW.updated_at = NOW()`). -/
def runProfileUpdate (now : Nat) (u : ProfileUpdate) (r : Profile) : Profile :=
  { applyProfileUpdate u r with updated_at := now }

/-- A SQL `UPDATE ... SET` list on `hospitals`. -/
structure HospitalUpdate where
  name : Option String := none
  address : Option String := none
  phone : Option String := none
  email : Option (Option String) := none
  city : Option String := none
  state : Option String := none
  updated_at : Option Nat := none
deriving Repr

def applyHospitalUpdate (u : HospitalUpdate) (r : Hospital) : Hospital :=
  { r with
    name := u.name.getD r.name
    address := u.address.getD r.address
    phone := u.phone.getD r.phone
    email := u.email.getD r.email
    city := u.city.getD r.city
    state := u.state.getD r.state
    updated_at := u.updated_at.getD r.updated_at }

/-- Pipeline of `BEFORE UPDATE` on `hospitals` with `update_hospitals_updated_at`. -/
def runHospitalUpdate (now : Nat) (u : HospitalUpdate) (r : Hospital) : Hospital :=
  { applyHospitalUpdate u r with updated_at := now }

/-- A SQL `UPDATE ... SET` list on `departments`. -/
structure DepartmentUpdate where
  name : Option String := none
  description : Option (Option String) := none
  hospital_id : Option UUID := none
  head_doctor_id : Option (Option UUID) := none
  updated_at : Option Nat := none
deriving Repr

def applyDepartmentUpdate (u : DepartmentUpdate) (r : Department) : Department :=
  { r with
    name := u.name.getD r.name
    description := u.description.getD r.description
    hospital_id := u.hospital_id.getD r.hospital_id
    head_doctor_id := u.head_doctor_id.getD r.head_doctor_id
    updated_at := u.updated_at.getD r.updated_at }

/-- Pipeline of `BEFORE UPDATE` on `departments` with `update_departments_updated_at`. -/
def runDepartmentUpdate (now : Nat) (u : DepartmentUpdate) (r : Department) :
    Department :=
  { applyDepartmentUpdate u r with updated_at := now }

/-- A SQL `UPDATE ... SET` list on `patients`. -/
structure PatientUpdate where
  patient_id : Option String := none
  full_name : Option String := none
  date_of_birth : Option Nat := none
  gender : Option Gender := none
  phone : Option (Option String) := none
  email : Option (Option String) := none
  address : Option (Option String) := none
  emergency_contact_name : Option (Option String) := none
  emergency_contact_phone : Option (Option String) := none
  medical_history : Option (Option String) := none
  current_hospital_id : Option (Option UUID) := none
  updated_at : Option Nat := none
deriving Repr

def applyPatientUpdate (u : PatientUpdate) (r : Patient) : Patient :=
  { r with
    patient_id := u.patient_id.getD r.patient_id
    full_name := u.full_name.getD r.full_name
    date_of_birth := u.date_of_birth.getD r.date_of_birth
    gender := u.gender.getD r.gender
    phone := u.phone.getD r.phone
    email := u.email.getD r.email
    address := u.address.getD r.address
    emergency_contact_name := u.emergency_contact_name.getD r.emergency_contact_name
    emergency_contact_phone := u.emergency_contact_phone.getD r.emergency_contact_phone
    medical_history := u.medical_history.getD r.medical_history
    current_hospital_id := u.current_hospital_id.getD r.current_hospital_id
    updated_at := u.updated_at.getD r.updated_at }

/-- Pipeline of `BEFORE UPDATE` on `patients` with `update_patients_updated_at`. -/
def runPatientUpdate (now : Nat) (u : PatientUpdate) (r : Patient) : Patient :=
  { applyPatientUpdate u r with updated_at := now }

/-- A SQL `UPDATE ... SET` list on `referrals`. -/
structure ReferralUpdate where
  referral_id : Option String := none
  patient_id : Option UUID := none
  referring_doctor_id : Option UUID := none
  target_specialist_id : Option (Option UUID) := none
  origin_hospital_id : Option UUID := none
  target_hospital_id : Option UUID := none
  target_department_id : Option UUID := none
  reason : Option String := none
  urgency : Option UrgencyLevel := none
  status : Option ReferralStatus := none
  notes : Option (Option String) := none
  specialist_notes : Option (Option String) := none
  appointment_date : Option (Option Nat) := none
  updated_at : Option Nat := none
deriving Repr

def applyReferralUpdate (u : ReferralUpdate) (r : Referral) : Referral :=
  { r with
    referral_id := u.referral_id.getD r.referral_id
    patient_id := u.patient_id.getD r.patient_id
    referring_doctor_id := u.referring_doctor_id.getD r.referring_doctor_id
    target_specialist_id := u.target_specialist_id.getD r.target_specialist_id
    origin_hospital_id := u.origin_hospital_id.getD r.origin_hospital_id
    target_hospital_id := u.target_hospital_id.getD r.target_hospital_id
    target_department_id := u.target_department_id.getD r.target_department_id
    reason := u.reason.getD r.reason
    urgency := u.urgency.getD r.urgency
    status := u.status.getD r.status
    notes := u.notes.getD r.notes
    specialist_notes := u.specialist_notes.getD r.specialist_notes
    appointment_date := u.appointment_date.getD r.appointment_date
    updated_at := u.updated_at.getD r.updated_at }

/-- Pipeline of `BEFORE UPDATE` on `referrals` with `update_referrals_updated_at`. -/
def runReferralUpdate (now : Nat) (u : ReferralUpdate) (r : Referral) : Referral :=
  { applyReferralUpdate u r with updated_at := now }

/-- C10: on each of the five tables carrying an `update_*_updated_at`
trigger, a `BEFORE UPDATE` run of `update_updated_at_column` forces
`updated_at = NOW()` (even against a caller-supplied value in the SET list)
and every column not named in the SET list keeps its old value. -/
theorem updates_set_updated_at_and_frame :
    (∀ (now : Nat) (u : ProfileUpdate) (r : Profile),
        (runProfileUpdate now u r).updated_at = now
        ∧ (runProfileUpdate now u r).id = r.id
        ∧ (runProfileUpdate now u r).created_at = r.created_at
        ∧ (u.full_name = none → (runProfileUpdate now u r).full_name = r.full_name)
        ∧ (u.email = none → (runProfileUpdate now u r).email = r.email)
        ∧ (u.phone = none → (runProfileUpdate now u r).phone = r.phone)
        ∧ (u.role = none → (runProfileUpdate now u r).role = r.role)
        ∧ (u.hospital_id = none → (runProfileUpdate now u r).hospital_id = r.hospital_id)
        ∧ (u.department_id = none →
            (runProfileUpdate now u r).department_id = r.department_id)
        ∧ (u.license_number = none →
            (runProfileUpdate now u r).license_number = r.license_number)
        ∧ (u.specialization = none →
            (runProfileUpdate now u r).specialization = r.specialization))
    ∧ (∀ (now : Nat) (u : HospitalUpdate) (r : Hospital),
        (runHospitalUpdate now u r).updated_at = now
        ∧ (runHospitalUpdate now u r).id = r.id
        ∧ (runHospitalUpdate now u r).created_at = r.created_at
        ∧ (u.name = none → (runHospitalUpdate now u r).name = r.name)
        ∧ (u.address = none → (runHospitalUpdate now u r).address = r.address)
        ∧ (u.phone = none → (runHospitalUpdate now u r).phone = r.phone)
        ∧ (u.email = none → (runHospitalUpdate now u r).email = r.email)
        ∧ (u.city = none → (runHospitalUpdate now u r).city = r.city)
        ∧ (u.state = none → (runHospitalUpdate now u r).state = r.state))
    ∧ (∀ (now : Nat) (u : DepartmentUpdate) (r : Department),
        (runDepartmentUpdate now u r).updated_at = now
        ∧ (runDepartmentUpdate now u r).id = r.id
        ∧ (runDepartmentUpdate now u r).created_at = r.created_at
        ∧ (u.name = none → (runDepartmentUpdate now u r).name = r.name)
        ∧ (u.description = none →
            (runDepartmentUpdate now u r).description = r.description)
        ∧ (u.hospital_id = none →
            (runDepartmentUpdate now u r).hospital_id = r.hospital_id)
        ∧ (u.head_doctor_id = none →
            (runDepartmentUpdate now u r).head_doctor_id = r.head_doctor_id))
    ∧ (∀ (now : Nat) (u : PatientUpdate) (r : Patient),
        (runPatientUpdate now u r).updated_at = now
        ∧ (runPatientUpdate now u r).id = r.id
        ∧ (runPatientUpdate now u r).created_at = r.created_at
        ∧ (u.patient_id = none → (runPatientUpdate now u r).patient_id = r.patient_id)
        ∧ (u.full_name = none → (runPatientUpdate now u r).full_name = r.full_name)
        ∧ (u.date_of_birth = none →
            (runPatientUpdate now u r).date_of_birth = r.date_of_birth)
        ∧ (u.gender = none → (runPatientUpdate now u r).gender = r.gender)
        ∧ (u.phone = none → (runPatientUpdate now u r).phone = r.phone)
        ∧ (u.email = none → (runPatientUpdate now u r).email = r.email)
        ∧ (u.address = none → (runPatientUpdate now u r).address = r.address)
        ∧ (u.emergency_contact_name = none →
            (runPatientUpdate now u r).emergency_contact_name = r.emergency_contact_name)
        ∧ (u.emergency_contact_phone = none →
            (runPatientUpdate now u r).emergency_contact_phone = r.emergency_contact_phone)
        ∧ (u.medical_history = none →
            (runPatientUpdate now u r).medical_history = r.medical_history)
        ∧ (u.current_hospital_id = none →
            (runPatientUpdate now u r).current_hospital_id = r.current_hospital_id))
    ∧ (∀ (now : Nat) (u : ReferralUpdate) (r : Referral),
        (runReferralUpdate now u r).updated_at = now
        ∧ (runReferralUpdate now u r).id = r.id
        ∧ (runReferralUpdate now u r).created_at = r.created_at
        ∧ (u.referral_id = none → (runReferralUpdate now u r).referral_id = r.referral_id)
        ∧ (u.patient_id = none → (runReferralUpdate now u r).patient_id = r.patient_id)
        ∧ (u.referring_doctor_id = none →
            (runReferralUpdate now u r).referring_doctor_id = r.referring_doctor_id)
        ∧ (u.target_specialist_id = none →
            (runReferralUpdate now u r).target_specialist_id = r.target_specialist_id)
        ∧ (u.origin_hospital_id = none →
            (runReferralUpdate now u r).origin_hospital_id = r.origin_hospital_id)
        ∧ (u.target_hospital_id = none →
            (runReferralUpdate now u r).target_hospital_id = r.target_hospital_id)
        ∧ (u.target_department_id = none →
            (runReferralUpdate now u r).target_department_id = r.target_department_id)
        ∧ (u.reason = none → (runReferralUpdate now u r).reason = r.reason)
        ∧ (u.urgency = none → (runReferralUpdate now u r).urgency = r.urgency)
        ∧ (u.status = none → (runReferralUpdate now u r).status = r.status)
        ∧ (u.notes = none → (runReferralUpdate now u r).notes = r.notes)
        ∧ (u.specialist_notes = none →
            (runReferralUpdate now u r).specialist_notes = r.specialist_notes)
        ∧ (u.appointment_date = none →
            (runReferralUpdate now u r).appointment_date = r.appointment_date)) := by
  refine ⟨?_, ?_, ?_, ?_, ?_⟩ <;>
  · intro now u r
    repeat' constructor
    all_goals
      first
      | rfl
      | (intro h
         simp [runProfileUpdate, applyProfileUpdate, runHospitalUpdate,
           applyHospitalUpdate, runDepartmentUpdate, applyDepartmentUpdate,
           runPatientUpdate, applyPatientUpdate, runReferralUpdate,
           applyReferralUpdate, h])

/-- C10 witness: an empty SET list on `exReferral` at time 5 yields
`updated_at = 5` and keeps `referral_id`. -/
theorem updates_set_updated_at_and_frame_witness :
    (runReferralUpdate 5 {} exReferral).updated_at = 5
    ∧ (runReferralUpdate 5 {} exReferral).referral_id = exReferral.referral_id :=
  ⟨(updates_set_updated_at_and_frame.2.2.2.2 5 {} exReferral).1,
   (updates_set_updated_at_and_frame.2.2.2.2 5 {} exReferral).2.2.2.1 rfl⟩

/-! ## INSERT pipeline and business identifiers (part_006 lines 201-228) -/

/-- An incoming `INSERT` row for `referrals` before triggers run:
`referral_id` may still be `NULL`. -/
structure ReferralInsert where
  id : UUID
  referral_id : Option String
  patient_id : UUID
  referring_doctor_id : UUID
  target_specialist_id : Option UUID
  origin_hospital_id : UUID
  target_hospital_id : UUID
  target_department_id : UUID
  reason : String
  urgency : UrgencyLevel
  status : ReferralStatus
  notes : Option String
  specialist_notes : Option String
  appointment_date : Option Nat
  created_at : Nat
  updated_at : Nat
deriving DecidableEq, Repr

/-- An incoming `INSERT` row for `patients` before triggers run. -/
structure PatientInsert where
  id : UUID
  patient_id : Option String
  full_name : String
  date_of_birth : Nat
  gender : Gender
  phone : Option String
  email : Option String
  address : Option String
  emergency_contact_name : Option String
  emergency_contact_phone : Option String
  medical_history : Option String
  current_hospital_id : Option UUID
  created_at : Nat
  updated_at : Nat
deriving DecidableEq, Repr

/-- Trigger `set_referral_id()` under its condition
`WHEN (NEW.referral_id IS NULL)` (part_006 lines 201-207 and 218-222): the
generator runs only when the caller supplied no identifier; a supplied
value is kept. -/
def set_referral_id_trigger (db : Database) (year : Nat) (qs : List ℚ)
    (new : ReferralInsert) : Option String :=
  match new.referral_id with
  | some v => some v
  | none => generate_referral_id db year qs

/-- Trigger `set_patient_id()` under `WHEN (NEW.patient_id IS NULL)`
(part_006 lines 209-215 and 224-228). -/
def set_patient_id_trigger (db : Database) (year : Nat) (qs : List ℚ)
    (new : PatientInsert) : Option String :=
  match new.patient_id with
  | some v => some v
  | none => generate_patient_id db year qs

def mkReferral (new : ReferralInsert) (rid : String) : Referral :=
  { id := new.id, referral_id := rid, patient_id := new.patient_id,
    referring_doctor_id := new.referring_doctor_id,
    target_specialist_id := new.target_specialist_id,
    origin_hospital_id := new.origin_hospital_id,
    target_hospital_id := new.target_hospital_id,
    target_department_id := new.target_department_id,
    reason := new.reason, urgency := new.urgency, status := new.status,
    notes := new.notes, specialist_notes := new.specialist_notes,
    appointment_date := new.appointment_date,
    created_at := new.created_at, updated_at := new.updated_at }

def mkPatient (new : PatientInsert) (pid : String) : Patient :=
  { id := new.id, patient_id := pid, full_name := new.full_name,
    date_of_birth := new.date_of_birth, gender := new.gender,
    phone := new.phone, email := new.email, address := new.address,
    emergency_contact_name := new.emergency_contact_name,
    emergency_contact_phone := new.emergency_contact_phone,
    medical_history := new.medical_history,
    current_hospital_id := new.current_hospital_id,
    created_at := new.created_at, updated_at := new.updated_at }

/-- Statement `INSERT INTO referrals`: run the `BEFORE INSERT` trigger, then enforce
the `UNIQUE NOT NULL` constraint on `referral_id` (part_006 line 67);
`none` = the statement fails. -/
def insertReferral (db : Database) (year : Nat) (qs : List ℚ)
    (new : ReferralInsert) : Option Database :=
  match set_referral_id_trigger db year qs new with
  | none => none
  | some rid =>
    if db.referrals.any fun r => r.referral_id == rid then none
    else some { db with referrals := db.referrals ++ [mkReferral new rid] }

/-- Statement `INSERT INTO patients` with the `UNIQUE NOT NULL` constraint on
`patient_id` (part_006 line 49). -/
def insertPatient (db : Database) (year : Nat) (qs : List ℚ)
    (new : PatientInsert) : Option Database :=
  match set_patient_id_trigger db year qs new with
  | none => none
  | some pid =>
    if db.patients.any fun p => p.patient_id == pid then none
    else some { db with patients := db.patients ++ [mkPatient new pid] }

theorem any_id_eq_false_imp {l : List Referral} {rid : String}
    (h : (l.any fun r => r.referral_id == rid) = false) :
    ∀ r ∈ l, r.referral_id ≠ rid := by
  intro r hr
  have := List.any_eq_false.mp h r hr
  simpa using this

theorem any_pid_eq_false_imp {l : List Patient} {pid : String}
    (h : (l.any fun p => p.patient_id == pid) = false) :
    ∀ p ∈ l, p.patient_id ≠ pid := by
  intro p hp
  have := List.any_eq_false.mp h p hp
  simpa using this

def exRefIdUpdate : ReferralUpdate := { referral_id := some "REF-2025-424242" }

/-- C6 counterexample: nothing enforces immutability of the business
identifier — the RLS `UPDATE` policy admits `exSpecialist` (the assigned
target specialist) updating `exReferral`, and a SET list naming
`referral_id` changes the stored identifier of the existing row. -/
theorem referral_id_not_immutable_cex :
    rowAllowed referralPolicies SqlOp.update exDb2 (some exSpecialist.id) exReferral = true
    ∧ (runReferralUpdate 7 exRefIdUpdate exReferral).referral_id
        ≠ exReferral.referral_id := by
  refine ⟨by decide, by decide⟩

/-- C6 (amended): business identifiers are assigned at creation — a supplied
value is kept, an absent one is filled by the generator — and the `UNIQUE`
constraint keeps the identifier column duplicate-free across inserts; but
immutability is not enforced (see the counterexample). -/
theorem business_id_assignment_spec :
    (∀ (db : Database) (year : Nat) (qs : List ℚ) (new : ReferralInsert)
        (db' : Database) (v : String),
        new.referral_id = some v → insertReferral db year qs new = some db' →
        db'.referrals = db.referrals ++ [mkReferral new v]
          ∧ ∀ r ∈ db.referrals, r.referral_id ≠ v)
    ∧ (∀ (db : Database) (year : Nat) (qs : List ℚ) (new : ReferralInsert)
        (db' : Database),
        new.referral_id = none → insertReferral db year qs new = some db' →
        ∃ rid, generate_referral_id db year qs = some rid
          ∧ db'.referrals = db.referrals ++ [mkReferral new rid]
          ∧ ∀ r ∈ db.referrals, r.referral_id ≠ rid)
    ∧ (∀ (db : Database) (year : Nat) (qs : List ℚ) (new : ReferralInsert)
        (db' : Database),
        insertReferral db year qs new = some db' →
        (db.referrals.map Referral.referral_id).Nodup →
        (db'.referrals.map Referral.referral_id).Nodup)
    ∧ (∀ (db : Database) (year : Nat) (qs : List ℚ) (new : PatientInsert)
        (db' : Database) (v : String),
        new.patient_id = some v → insertPatient db year qs new = some db' →
        db'.patients = db.patients ++ [mkPatient new v]
          ∧ ∀ p ∈ db.patients, p.patient_id ≠ v)
    ∧ (∀ (db : Database) (year : Nat) (qs : List ℚ) (new : PatientInsert)
        (db' : Database),
        new.patient_id = none → insertPatient db year qs new = some db' →
        ∃ pid, generate_patient_id db year qs = some pid
          ∧ db'.patients = db.patients ++ [mkPatient new pid]
          ∧ ∀ p ∈ db.patients, p.patient_id ≠ pid)
    ∧ (∀ (db : Database) (year : Nat) (qs : List ℚ) (new : PatientInsert)
        (db' : Database),
        insertPatient db year qs new = some db' →
        (db.patients.map Patient.patient_id).Nodup →
        (db'.patients.map Patient.patient_id).Nodup) := by
  refine ⟨?_, ?_, ?_, ?_, ?_, ?_⟩
  · intro db year qs new db' v hv hins
    unfold insertReferral at hins
    split at hins
    · exact absurd hins (by simp)
    · rename_i rid htrig
      unfold set_referral_id_trigger at htrig
      rw [hv] at htrig
      obtain rfl : v = rid := Option.some.inj htrig
      split at hins
      · exact absurd hins (by simp)
      · rename_i hguard
        have hg : (db.referrals.any fun r => r.referral_id == v) = false :=
          eq_false_of_ne_true hguard
        obtain rfl : ({ db with referrals := db.referrals ++ [mkReferral new v] }
            : Database) = db' := Option.some.inj hins
        exact ⟨rfl, any_id_eq_false_imp hg⟩
  · intro db year qs new db' hv hins
    unfold insertReferral at hins
    split at hins
    · exact absurd hins (by simp)
    · rename_i rid htrig
      unfold set_referral_id_trigger at htrig
      rw [hv] at htrig
      split at hins
      · exact absurd hins (by simp)
      · rename_i hguard
        have hg : (db.referrals.any fun r => r.referral_id == rid) = false :=
          eq_false_of_ne_true hguard
        obtain rfl : ({ db with referrals := db.referrals ++ [mkReferral new rid] }
            : Database) = db' := Option.some.inj hins
        exact ⟨rid, htrig, rfl, any_id_eq_false_imp hg⟩
  · intro db year qs new db' hins hnd
    unfold insertReferral at hins
    split at hins
    · exact absurd hins (by simp)
    · rename_i rid htrig
      split at hins
      · exact absurd hins (by simp)
      · rename_i hguard
        have hg : (db.referrals.any fun r => r.referral_id == rid) = false :=
          eq_false_of_ne_true hguard
        obtain rfl : ({ db with referrals := db.referrals ++ [mkReferral new rid] }
            : Database) = db' := Option.some.inj hins
        rw [show ({ db with referrals := db.referrals ++ [mkReferral new rid] }
              : Database).referrals = db.referrals ++ [mkReferral new rid] from rfl]
        rw [List.map_append]
        refine List.Nodup.append hnd (by simp) ?_
        intro a ha hb
        rw [List.mem_map] at ha
        obtain ⟨r, hr, rfl⟩ := ha
        rw [show (List.map Referral.referral_id [mkReferral new rid])
              = [rid] from rfl] at hb
        rw [List.mem_singleton] at hb
        exact any_id_eq_false_imp hg r hr hb
  · intro db year qs new db' v hv hins
    unfold insertPatient at hins
    split at hins
    · exact absurd hins (by simp)
    · rename_i pid htrig
      unfold set_patient_id_trigger at htrig
      rw [hv] at htrig
      obtain rfl : v = pid := Option.some.inj htrig
      split at hins
      · exact absurd hins (by simp)
      · rename_i hguard
        have hg : (db.patients.any fun p => p.patient_id == v) = false :=
          eq_false_of_ne_true hguard
        obtain rfl : ({ db with patients := db.patients ++ [mkPatient new v] }
            : Database) = db' := Option.some.inj hins
        exact ⟨rfl, any_pid_eq_false_imp hg⟩
  · intro db year qs new db' hv hins
    unfold insertPatient at hins
    split at hins
    · exact absurd hins (by simp)
    · rename_i pid htrig
      unfold set_patient_id_trigger at htrig
      rw [hv] at htrig
      split at hins
      · exact absurd hins (by simp)
      · rename_i hguard
        have hg : (db.patients.any fun p => p.patient_id == pid) = false :=
          eq_false_of_ne_true hguard
        obtain rfl : ({ db with patients := db.patients ++ [mkPatient new pid] }
            : Database) = db' := Option.some.inj hins
        exact ⟨pid, htrig, rfl, any_pid_eq_false_imp hg⟩
  · intro db year qs new db' hins hnd
    unfold insertPatient at hins
    split at hins
    · exact absurd hins (by simp)
    · rename_i pid htrig
      split at hins
      · exact absurd hins (by simp)
      · rename_i hguard
        have hg : (db.patients.any fun p => p.patient_id == pid) = false :=
          eq_false_of_ne_true hguard
        obtain rfl : ({ db with patients := db.patients ++ [mkPatient new pid] }
            : Database) = db' := Option.some.inj hins
        rw [show ({ db with patients := db.patients ++ [mkPatient new pid] }
              : Database).patients = db.patients ++ [mkPatient new pid] from rfl]
        rw [List.map_append]
        refine List.Nodup.append hnd (by simp) ?_
        intro a ha hb
        rw [List.mem_map] at ha
        obtain ⟨p, hp, rfl⟩ := ha
        rw [show (List.map Patient.patient_id [mkPatient new pid])
              = [pid] from rfl] at hb
        rw [List.mem_singleton] at hb
        exact any_pid_eq_false_imp hg p hp hb

def exRefInsert : ReferralInsert :=
  { id := 201, referral_id := some "REF-2025-777777", patient_id := 100,
    referring_doctor_id := 1, target_specialist_id := none,
    origin_hospital_id := 10, target_hospital_id := 20,
    target_department_id := 30, reason := "followup",
    urgency := UrgencyLevel.low, status := ReferralStatus.pending,
    notes := none, specialist_notes := none, appointment_date := none,
    created_at := 1, updated_at := 1 }

def exDbAfterInsert : Database :=
  { exDb2 with referrals := exDb2.referrals ++ [mkReferral exRefInsert "REF-2025-777777"] }

/-- C6 witness: inserting a referral with a supplied identifier keeps that
identifier and it is fresh in `exDb2`. -/
theorem business_id_assignment_spec_witness :
    exDbAfterInsert.referrals
        = exDb2.referrals ++ [mkReferral exRefInsert "REF-2025-777777"]
    ∧ ∀ r ∈ exDb2.referrals, r.referral_id ≠ "REF-2025-777777" :=
  business_id_assignment_spec.1 exDb2 2025 [] exRefInsert exDbAfterInsert
    "REF-2025-777777" rfl (by decide)
